import Mathlib

/-!
Shallow embedding of the ses-smtpd-relay core (main.go).

The per-connection SMTP session callbacks (Mail, Rcpt, Data, Reset) are
modelled as pure functions on an explicit session state.  The prometheus
counters are modelled as a record of natural-number counters, with the
counter vector keyed by its label string.  The body reader handed to
Data is modelled by its observable outcome (the bytes the client stream
delivers, and whether the stream fails after delivering them), and the
SES SendRawEmail call is modelled as a function parameter returning
success or an error, with every constructed request recorded in the
result so that theorems can speak about what was sent.
-/

/-- Constant `SesSizeLimit` from main.go: 40MB limit for the SES v2 API. -/
def SesSizeLimit : Nat := 40000000

/-- The `smtp.EnhancedCode` triple attached to an SMTP error. -/
structure EnhancedCode where
  a : Nat
  b : Nat
  c : Nat
deriving DecidableEq

/-- The `smtp.SMTPError` values returned by `Session.Data`. -/
structure SMTPError where
  code : Nat
  enhancedCode : EnhancedCode
  message : String
deriving DecidableEq

/-- The prometheus counters of main.go: `emailSent` is the
success counter, `emailError` is the failure counter vector keyed by its
`type` label, and `sesError` is the dedicated SES API error counter. -/
structure Metrics where
  emailSent : Nat
  emailError : String → Nat
  sesError : Nat

/-- One `emailError.With(prometheus.Labels).Inc()` call: bump the counter
for the given label, leave every other label untouched. -/
def Metrics.incError (m : Metrics) (label : String) : Metrics :=
  { m with emailError := fun t => if t = label then m.emailError t + 1 else m.emailError t }

/-- One `emailSent.Inc()` call. -/
def Metrics.incSent (m : Metrics) : Metrics :=
  { m with emailSent := m.emailSent + 1 }

/-- One `sesError.Inc()` call. -/
def Metrics.incSes (m : Metrics) : Metrics :=
  { m with sesError := m.sesError + 1 }

/-- The mutable fields of the `Session` struct: envelope sender (`from`),
recipient list and body bytes.  The backend pointer is passed separately
where needed and the connection handle carries no data used by the core. -/
structure Session where
  from_ : String
  recipients : List String
  data : List Nat
deriving DecidableEq

/-- The shared `Backend` struct; the SES client handle itself is modelled
as the `send` function parameter of `Session.Data`. -/
structure Backend where
  configSetName : Option String
deriving DecidableEq

/-- `Backend.NewSession`: a freshly created session has zero-valued
fields (empty sender, nil recipients, nil data). -/
def Backend.NewSession (_ : Backend) : Session :=
  { from_ := "", recipients := [], data := [] }

/-- `Session.AuthPlain`: accepted unconditionally. -/
def Session.AuthPlain (_ : Session) (_username _password : String) : Option SMTPError :=
  none

/-- `Session.Mail`: records the envelope sender and never fails. -/
def Session.Mail (s : Session) (from_ : String) : Session × Option SMTPError :=
  ({ s with from_ := from_ }, none)

/-- `Session.Rcpt`: appends one recipient and never fails. -/
def Session.Rcpt (s : Session) (to_ : String) : Session × Option SMTPError :=
  ({ s with recipients := s.recipients ++ [to_] }, none)

/-- Observable behaviour of the client body stream handed to `Session.Data`:
either it delivers `bytes` and ends cleanly, or it delivers `bytes` and then
fails with a read error. -/
inductive ReaderOutcome where
  | ok (bytes : List Nat)
  | err (bytes : List Nat)
deriving DecidableEq

/-- `io.ReadAll(io.LimitReader(r, n))`: at most `n` bytes are consumed from
the stream.  A stream failure is only observed when it occurs before `n`
bytes were delivered; once `n` bytes are read the limited reader reports
end of input and the rest of the stream (including a later failure) is
never touched. -/
def readAllLimit (n : Nat) : ReaderOutcome → Except Unit (List Nat)
  | .ok bs => .ok (bs.take n)
  | .err bs => if n ≤ bs.length then .ok (bs.take n) else .error ()

/-- `types.RawMessage` for the SES request. -/
structure RawMessage where
  data : List Nat
deriving DecidableEq

/-- `ses.SendRawEmailInput` as constructed in `Session.Data`. -/
structure SendRawEmailInput where
  configurationSetName : Option String
  source : String
  destinations : List String
  rawMessage : RawMessage
deriving DecidableEq

/-- Result of one `Session.Data` call: the session state after the call,
the counters after the call, every SES request issued during the call (in
order), and the SMTP-level return value (`none` is the nil error). -/
structure DataResult where
  session : Session
  metrics : Metrics
  sendCalls : List SendRawEmailInput
  response : Option SMTPError

/-- `Session.Data` from main.go: reject when the recipient list is empty,
read the body through a limit reader of `SesSizeLimit + 1` bytes, reject a
read failure, reject a body longer than `SesSizeLimit`, store the body,
build the `SendRawEmailInput` and invoke SES, classifying its outcome. -/
def Session.Data (b : Backend) (s : Session) (m : Metrics)
    (r : ReaderOutcome) (send : SendRawEmailInput → Except String Unit) : DataResult :=
  if s.recipients.length = 0 then
    { session := s
      metrics := m.incError "no valid recipients"
      sendCalls := []
      response := some ⟨554, ⟨5, 5, 1⟩, "Error: no valid recipients"⟩ }
  else
    match readAllLimit (SesSizeLimit + 1) r with
    | .error _ =>
        { session := s
          metrics := m.incError "read error"
          sendCalls := []
          response := some ⟨451, ⟨4, 5, 1⟩, "Temporary server error reading message"⟩ }
    | .ok dat =>
        if dat.length > SesSizeLimit then
          { session := s
            metrics := m.incError "minimum message size exceed"
            sendCalls := []
            response := some ⟨554, ⟨5, 5, 1⟩, "Error: maximum message size exceeded"⟩ }
        else
          let s2 : Session := { s with data := dat }
          let input : SendRawEmailInput :=
            { configurationSetName := b.configSetName
              source := s2.from_
              destinations := s2.recipients
              rawMessage := ⟨s2.data⟩ }
          match send input with
          | .error _ =>
              { session := s2
                metrics := (m.incError "ses error").incSes
                sendCalls := [input]
                response := some ⟨451, ⟨4, 5, 1⟩, "Temporary server error. Please try again later"⟩ }
          | .ok _ =>
              { session := s2
                metrics := m.incSent
                sendCalls := [input]
                response := none }

/-- `Session.Reset` from main.go: unconditionally clear sender, recipients
and body.  It takes no other input, returns nothing and touches no counter
and no SES handle. -/
def Session.Reset (s : Session) : Session :=
  { s with from_ := "", recipients := [], data := [] }

/-- The `configSetPtr` computation in `main`: the configuration set flag
value is forwarded as a pointer only when non-empty, a nil pointer (here
`none`) otherwise. -/
def mkConfigSetPtr (configurationSetName : String) : Option String :=
  if configurationSetName ≠ "" then some configurationSetName else none

/-- Credential providers as assembled by `makeSesClient`: either the
default AWS provider chain from `config.LoadDefaultConfig`, or that chain
wrapped in an STS assume-role provider. -/
inductive CredProvider where
  | defaultChain
  | assumeRole (base : CredProvider) (roleArn : String) (sessionName : String)
deriving DecidableEq

/-- Whether a provider is an assume-role wrapper. -/
def CredProvider.isAssumeRole : CredProvider → Bool
  | .assumeRole _ _ _ => true
  | .defaultChain => false

/-- The relevant environment for `makeSesClient`; `os.Getenv` yields the
empty string for an unset variable. -/
structure AwsEnv where
  roleArn : String
  roleSessionName : String
deriving DecidableEq

/-- The credential-resolution logic of `makeSesClient` in main.go: when
`AWS_ROLE_ARN` is non-empty, wrap the default chain in an assume-role
provider whose session name is `AWS_ROLE_SESSION_NAME`, defaulting to the
literal used by the code when that variable is empty.  The subsequent
identity lookup and client construction are diagnostics and plumbing with
no effect on the resolved credentials. -/
def makeSesClient (env : AwsEnv) : CredProvider :=
  if env.roleArn ≠ "" then
    let sessionName :=
      if env.roleSessionName = "" then "ses-smtpd-relay-session" else env.roleSessionName
    .assumeRole .defaultChain env.roleArn sessionName
  else
    .defaultChain

/-- Modelled from the spec: the external protocol engine (go-smtp, outside
this repository) invokes the session `Reset` callback once body submission
has completed, per the spec lifecycle clause that the transaction state is
fully cleared after a transaction finishes being handed to the Relay
Pipeline.  This composes `Session.Data` with that engine-driven reset. -/
def afterBodySubmission (b : Backend) (s : Session) (m : Metrics)
    (r : ReaderOutcome) (send : SendRawEmailInput → Except String Unit) : Session :=
  Session.Reset (Session.Data b s m r send).session

/-- Sum of the success counter and the four failure-cause counters that
`Session.Data` can touch; the dedicated `sesError` counter is a separate
subset counter and is excluded. -/
def counterSum (m : Metrics) : Nat :=
  m.emailSent + m.emailError "no valid recipients" + m.emailError "read error"
    + m.emailError "minimum message size exceed" + m.emailError "ses error"

/-- C1: with an empty recipient list, `Session.Data` rejects the
transaction with 554 and enhanced code 5.5.1, increments the
counter labelled for missing recipients, never invokes the send
operation, and its entire result is independent of the body reader and of
the send function, so no body byte is ever read. -/
theorem data_noRecipients_rejects (b : Backend) (s : Session) (m : Metrics)
    (r : ReaderOutcome) (send : SendRawEmailInput → Except String Unit)
    (h : s.recipients = []) :
    (Session.Data b s m r send).sendCalls = []
    ∧ (Session.Data b s m r send).metrics = m.incError "no valid recipients"
    ∧ (Session.Data b s m r send).response =
        some ⟨554, ⟨5, 5, 1⟩, "Error: no valid recipients"⟩
    ∧ ∀ r2 send2, Session.Data b s m r send = Session.Data b s m r2 send2 := by
  simp [Session.Data, h]

/-- Witness for C1 at a concrete session with no recipients. -/
theorem data_noRecipients_rejects_witness :
    (Session.Data ⟨none⟩ ⟨"a@example.com", [], []⟩ ⟨0, fun _ => 0, 0⟩
        (.ok [1, 2, 3]) (fun _ => .ok ())).response =
      some ⟨554, ⟨5, 5, 1⟩, "Error: no valid recipients"⟩ :=
  (data_noRecipients_rejects ⟨none⟩ ⟨"a@example.com", [], []⟩ ⟨0, fun _ => 0, 0⟩
    (.ok [1, 2, 3]) (fun _ => .ok ()) rfl).2.2.1

/-- C7: `Session.Reset` clears sender, recipients and body, equals the
freshly created session of `Backend.NewSession`, and a subsequent `Data`
call on the reset session behaves exactly as on a fresh connection.  In
the embedding `Reset` is a total function from sessions to sessions with
no counter, reader or send-function argument, so it always succeeds and
cannot interact with the sending API. -/
theorem reset_clears (s : Session) (b : Backend) :
    (Session.Reset s).from_ = ""
    ∧ (Session.Reset s).recipients = []
    ∧ (Session.Reset s).data = []
    ∧ Session.Reset s = b.NewSession
    ∧ ∀ m r send, Session.Data b (Session.Reset s) m r send =
        Session.Data b (b.NewSession) m r send := by
  simp [Session.Reset, Backend.NewSession]

/-- C8: after body submission completes (whatever its outcome) and the
protocol engine performs the post-data reset, all three transaction
fields are cleared: the session equals a freshly created one. -/
theorem afterBodySubmission_cleared (b : Backend) (s : Session) (m : Metrics)
    (r : ReaderOutcome) (send : SendRawEmailInput → Except String Unit) :
    afterBodySubmission b s m r send = b.NewSession := by
  simp [afterBodySubmission, Session.Reset, Backend.NewSession]

/-- C9: `makeSesClient` wraps the base credentials in an assume-role
provider exactly when `AWS_ROLE_ARN` is non-empty, and when
`AWS_ROLE_SESSION_NAME` is empty the session name is the fixed literal. -/
theorem makeSesClient_role (env : AwsEnv) :
    ((makeSesClient env).isAssumeRole = true ↔ env.roleArn ≠ "")
    ∧ (env.roleArn ≠ "" → env.roleSessionName = "" →
        makeSesClient env =
          .assumeRole .defaultChain env.roleArn "ses-smtpd-relay-session") := by
  constructor
  · constructor
    · intro hiso
      intro hempty
      simp [makeSesClient, hempty, CredProvider.isAssumeRole] at hiso
    · intro hne
      simp [makeSesClient, hne, CredProvider.isAssumeRole]
  · intro hne hname
    simp [makeSesClient, hne, hname]

/-- Witness for C9: a concrete role ARN with no separately supplied
session name yields the defaulted literal session name. -/
theorem makeSesClient_role_witness :
    makeSesClient ⟨"arn:aws:iam::123456789012:role/relay", ""⟩ =
      .assumeRole .defaultChain "arn:aws:iam::123456789012:role/relay"
        "ses-smtpd-relay-session" :=
  (makeSesClient_role ⟨"arn:aws:iam::123456789012:role/relay", ""⟩).2
    (by decide) rfl

/-- C10: a second `Session.Mail` in the same transaction succeeds and
silently overwrites the recorded sender (last write wins); `Mail` never
fails and leaves recipients and body untouched. -/
theorem mail_lastWriteWins (s : Session) (a1 a2 : String) :
    (Session.Mail s a1).2 = none
    ∧ (Session.Mail s a1).1.from_ = a1
    ∧ (Session.Mail s a1).1.recipients = s.recipients
    ∧ (Session.Mail s a1).1.data = s.data
    ∧ (Session.Mail (Session.Mail s a1).1 a2).2 = none
    ∧ (Session.Mail (Session.Mail s a1).1 a2).1.from_ = a2
    ∧ (Session.Mail (Session.Mail s a1).1 a2).1.recipients = s.recipients
    ∧ (Session.Mail (Session.Mail s a1).1 a2).1.data = s.data := by
  simp [Session.Mail]

/-- Helper: with recipients present and a body within the SES limit, the
read and size checks pass and `Session.Data` reduces to the send call on
the request built from the session. -/
theorem data_ok_unfold (b : Backend) (s : Session) (m : Metrics) (bs : List Nat)
    (send : SendRawEmailInput → Except String Unit)
    (hrec : s.recipients ≠ []) (hlen : bs.length ≤ SesSizeLimit) :
    Session.Data b s m (.ok bs) send =
      match send { configurationSetName := b.configSetName, source := s.from_,
                   destinations := s.recipients, rawMessage := ⟨bs⟩ } with
      | .error _ =>
          { session := { s with data := bs }
            metrics := (m.incError "ses error").incSes
            sendCalls := [{ configurationSetName := b.configSetName, source := s.from_,
                            destinations := s.recipients, rawMessage := ⟨bs⟩ }]
            response := some ⟨451, ⟨4, 5, 1⟩, "Temporary server error. Please try again later"⟩ }
      | .ok _ =>
          { session := { s with data := bs }
            metrics := m.incSent
            sendCalls := [{ configurationSetName := b.configSetName, source := s.from_,
                            destinations := s.recipients, rawMessage := ⟨bs⟩ }]
            response := none } := by
  have h0 : ¬ s.recipients.length = 0 := by
    simpa [List.length_eq_zero] using hrec
  have htake : bs.take (SesSizeLimit + 1) = bs := List.take_of_length_le (by omega)
  simp only [Session.Data, readAllLimit, h0, if_false, htake]
  rw [if_neg (by omega)]

/-- Helper: with recipients present, a stream failure occurring before the
limit-reader ceiling is hit makes `Session.Data` report a read error. -/
theorem data_err_unfold (b : Backend) (s : Session) (m : Metrics) (bs : List Nat)
    (send : SendRawEmailInput → Except String Unit)
    (hrec : s.recipients ≠ []) (hshort : bs.length < SesSizeLimit + 1) :
    Session.Data b s m (.err bs) send =
      { session := s
        metrics := m.incError "read error"
        sendCalls := []
        response := some ⟨451, ⟨4, 5, 1⟩, "Temporary server error reading message"⟩ } := by
  have h0 : ¬ s.recipients.length = 0 := by
    simpa [List.length_eq_zero] using hrec
  have hlt : ¬ SesSizeLimit + 1 ≤ bs.length := by omega
  simp only [Session.Data, readAllLimit, h0, if_false, hlt]

/-- Helper: with recipients present, a delivered body longer than the SES
limit makes `Session.Data` report the size error without sending. -/
theorem data_oversize_unfold (b : Backend) (s : Session) (m : Metrics) (bs : List Nat)
    (send : SendRawEmailInput → Except String Unit)
    (hrec : s.recipients ≠ []) (hbig : bs.length > SesSizeLimit) :
    Session.Data b s m (.ok bs) send =
      { session := s
        metrics := m.incError "minimum message size exceed"
        sendCalls := []
        response := some ⟨554, ⟨5, 5, 1⟩, "Error: maximum message size exceeded"⟩ } := by
  have h0 : ¬ s.recipients.length = 0 := by
    simpa [List.length_eq_zero] using hrec
  have hcut : (bs.take (SesSizeLimit + 1)).length > SesSizeLimit := by
    rw [List.length_take]
    omega
  simp only [Session.Data, readAllLimit, h0, if_false]
  rw [if_pos hcut]

/-- C2: the limited read never yields more than `SesSizeLimit + 1` bytes;
with recipients present, a body of exactly `SesSizeLimit` bytes passes the
size check and the send operation is invoked exactly once, while a
delivered body exceeding `SesSizeLimit` bytes is rejected with 554 / 5.5.1
and the send operation is never invoked. -/
theorem data_size_limit (b : Backend) (s : Session) (m : Metrics)
    (send : SendRawEmailInput → Except String Unit) (bs : List Nat)
    (hrec : s.recipients ≠ []) :
    (∀ r out, readAllLimit (SesSizeLimit + 1) r = .ok out → out.length ≤ SesSizeLimit + 1)
    ∧ (bs.length = SesSizeLimit →
        (Session.Data b s m (.ok bs) send).sendCalls.length = 1)
    ∧ (bs.length > SesSizeLimit →
        (Session.Data b s m (.ok bs) send).sendCalls = []
        ∧ (Session.Data b s m (.ok bs) send).response =
            some ⟨554, ⟨5, 5, 1⟩, "Error: maximum message size exceeded"⟩) := by
  refine ⟨?_, ?_, ?_⟩
  · intro r out hr
    cases r with
    | ok l =>
        simp only [readAllLimit, Except.ok.injEq] at hr
        rw [← hr, List.length_take]
        omega
    | err l =>
        simp only [readAllLimit] at hr
        split at hr
        · simp only [Except.ok.injEq] at hr
          rw [← hr, List.length_take]
          omega
        · exact absurd hr (by simp)
  · intro hlen
    rw [data_ok_unfold b s m bs send hrec (by omega)]
    cases send { configurationSetName := b.configSetName, source := s.from_,
                 destinations := s.recipients, rawMessage := ⟨bs⟩ } <;> simp
  · intro hbig
    rw [data_oversize_unfold b s m bs send hrec hbig]
    exact ⟨rfl, rfl⟩

/-- Witness for C2 at a concrete session and a body of exactly
`SesSizeLimit` bytes: the send operation is invoked exactly once. -/
theorem data_size_limit_witness :
    (Session.Data ⟨none⟩ ⟨"a@example.com", ["b@example.com"], []⟩ ⟨0, fun _ => 0, 0⟩
        (.ok (List.replicate SesSizeLimit 7)) (fun _ => .ok ())).sendCalls.length = 1 :=
  (data_size_limit ⟨none⟩ ⟨"a@example.com", ["b@example.com"], []⟩ ⟨0, fun _ => 0, 0⟩
    (fun _ => .ok ()) (List.replicate SesSizeLimit 7) (by simp)).2.1 (by simp)

/-- C3: on the send path the single constructed request carries the
session sender as source, the recipient list in order as destinations,
the read body bytes as raw message payload, and the startup
configuration-set value unchanged; the startup value is `none` (absent,
not an empty string) exactly when no label was supplied on the flag. -/
theorem data_send_request (cfg : String) (s : Session) (m : Metrics)
    (send : SendRawEmailInput → Except String Unit) (bs : List Nat)
    (hrec : s.recipients ≠ []) (hlen : bs.length ≤ SesSizeLimit) :
    (Session.Data ⟨mkConfigSetPtr cfg⟩ s m (.ok bs) send).sendCalls =
      [{ configurationSetName := mkConfigSetPtr cfg
         source := s.from_
         destinations := s.recipients
         rawMessage := ⟨bs⟩ }]
    ∧ mkConfigSetPtr "" = none
    ∧ (cfg ≠ "" → mkConfigSetPtr cfg = some cfg) := by
  refine ⟨?_, rfl, fun h => by simp [mkConfigSetPtr, h]⟩
  rw [data_ok_unfold ⟨mkConfigSetPtr cfg⟩ s m bs send hrec hlen]
  cases send { configurationSetName := mkConfigSetPtr cfg, source := s.from_,
               destinations := s.recipients, rawMessage := ⟨bs⟩ } <;> rfl

/-- Witness for C3 at a concrete transaction with a supplied label. -/
theorem data_send_request_witness :
    (Session.Data ⟨mkConfigSetPtr "campaign-1"⟩ ⟨"a@example.com", ["b@example.com"], []⟩
        ⟨0, fun _ => 0, 0⟩ (.ok [1, 2, 3]) (fun _ => .ok ())).sendCalls =
      [{ configurationSetName := mkConfigSetPtr "campaign-1"
         source := "a@example.com"
         destinations := ["b@example.com"]
         rawMessage := ⟨[1, 2, 3]⟩ }] :=
  (data_send_request "campaign-1" ⟨"a@example.com", ["b@example.com"], []⟩
    ⟨0, fun _ => 0, 0⟩ (fun _ => .ok ()) [1, 2, 3] (by simp) (by decide)).1

/-- C4: when the SES send fails, `Session.Data` increments both the
failure counter labelled for SES errors and the dedicated SES API error
counter, and returns 451 with enhanced code 4.5.1. -/
theorem data_send_failure (b : Backend) (s : Session) (m : Metrics)
    (send : SendRawEmailInput → Except String Unit) (bs : List Nat) (e : String)
    (hrec : s.recipients ≠ []) (hlen : bs.length ≤ SesSizeLimit)
    (hfail : send { configurationSetName := b.configSetName, source := s.from_,
                    destinations := s.recipients, rawMessage := ⟨bs⟩ } = .error e) :
    (Session.Data b s m (.ok bs) send).metrics.emailError "ses error" =
        m.emailError "ses error" + 1
    ∧ (Session.Data b s m (.ok bs) send).metrics.sesError = m.sesError + 1
    ∧ (Session.Data b s m (.ok bs) send).response =
        some ⟨451, ⟨4, 5, 1⟩, "Temporary server error. Please try again later"⟩ := by
  rw [data_ok_unfold b s m bs send hrec hlen, hfail]
  refine ⟨?_, rfl, rfl⟩
  simp [Metrics.incSes, Metrics.incError]

/-- Witness for C4 at a concrete transaction whose send operation fails. -/
theorem data_send_failure_witness :
    (Session.Data ⟨none⟩ ⟨"a@example.com", ["b@example.com"], []⟩ ⟨0, fun _ => 0, 0⟩
        (.ok [120]) (fun _ => .error "boom")).response =
      some ⟨451, ⟨4, 5, 1⟩, "Temporary server error. Please try again later"⟩ :=
  (data_send_failure ⟨none⟩ ⟨"a@example.com", ["b@example.com"], []⟩ ⟨0, fun _ => 0, 0⟩
    (fun _ => .error "boom") [120] "boom" (by simp) (by decide) rfl).2.2

/-- C6: with recipients present, a stream failure before the size ceiling
is reached is classified as a read error: the read-error counter is
incremented, the send operation is never invoked, and the response is 451
with enhanced code 4.5.1. -/
theorem data_read_failure (b : Backend) (s : Session) (m : Metrics)
    (send : SendRawEmailInput → Except String Unit) (bs : List Nat)
    (hrec : s.recipients ≠ []) (hshort : bs.length < SesSizeLimit + 1) :
    (Session.Data b s m (.err bs) send).metrics.emailError "read error" =
        m.emailError "read error" + 1
    ∧ (Session.Data b s m (.err bs) send).sendCalls = []
    ∧ (Session.Data b s m (.err bs) send).response =
        some ⟨451, ⟨4, 5, 1⟩, "Temporary server error reading message"⟩ := by
  rw [data_err_unfold b s m bs send hrec hshort]
  refine ⟨?_, rfl, rfl⟩
  simp [Metrics.incError]

/-- Witness for C6 at a concrete transaction whose stream fails at once. -/
theorem data_read_failure_witness :
    (Session.Data ⟨none⟩ ⟨"a@example.com", ["b@example.com"], []⟩ ⟨0, fun _ => 0, 0⟩
        (.err []) (fun _ => .ok ())).response =
      some ⟨451, ⟨4, 5, 1⟩, "Temporary server error reading message"⟩ :=
  (data_read_failure ⟨none⟩ ⟨"a@example.com", ["b@example.com"], []⟩ ⟨0, fun _ => 0, 0⟩
    (fun _ => .ok ()) [] (by simp) (by decide)).2.2

/-- Helper: with an empty recipient list `Session.Data` reduces to the
no-recipients rejection record. -/
theorem data_empty_unfold (b : Backend) (s : Session) (m : Metrics)
    (r : ReaderOutcome) (send : SendRawEmailInput → Except String Unit)
    (h : s.recipients = []) :
    Session.Data b s m r send =
      { session := s
        metrics := m.incError "no valid recipients"
        sendCalls := []
        response := some ⟨554, ⟨5, 5, 1⟩, "Error: no valid recipients"⟩ } := by
  simp [Session.Data, h]

/-- Helper: when the stream fails only after the limit-reader ceiling was
delivered, the failure is never observed and `Session.Data` behaves as on
a cleanly ending stream with the same bytes. -/
theorem data_err_long (b : Backend) (s : Session) (m : Metrics) (bs : List Nat)
    (send : SendRawEmailInput → Except String Unit)
    (hlong : SesSizeLimit + 1 ≤ bs.length) :
    Session.Data b s m (.err bs) send = Session.Data b s m (.ok bs) send := by
  simp only [Session.Data, readAllLimit, if_pos hlong]

/-- Helper: bumping any one of the four failure labels raises the
success-plus-failure counter sum by exactly one. -/
theorem counterSum_incError (m : Metrics) (l : String)
    (hl : l = "no valid recipients" ∨ l = "read error"
        ∨ l = "minimum message size exceed" ∨ l = "ses error") :
    counterSum (m.incError l) = counterSum m + 1 := by
  rcases hl with h | h | h | h <;> subst h <;>
    simp [counterSum, Metrics.incError] <;> omega

/-- Helper: an `incError` moves every individual label counter by zero or
one. -/
theorem incError_or (m : Metrics) (l t : String) :
    (m.incError l).emailError t = m.emailError t
    ∨ (m.incError l).emailError t = m.emailError t + 1 := by
  by_cases h : t = l <;> simp [Metrics.incError, h]

/-- Helper: a success bump raises the counter sum by exactly one. -/
theorem counterSum_incSent (m : Metrics) :
    counterSum (m.incSent) = counterSum m + 1 := by
  simp [counterSum, Metrics.incSent]
  omega

/-- C5: every `Session.Data` call raises the sum of the success counter
and the four per-cause failure counters by exactly one, moves the success
counter by zero or one, and moves each individual failure-label counter
by zero or one — so exactly one of the five outcome counters is
incremented, never both a success and a failure, never neither.  The
dedicated SES API error counter is a separate subset counter excluded
from the sum. -/
theorem data_exactly_one_outcome (b : Backend) (s : Session) (m : Metrics)
    (r : ReaderOutcome) (send : SendRawEmailInput → Except String Unit) :
    counterSum (Session.Data b s m r send).metrics = counterSum m + 1
    ∧ ((Session.Data b s m r send).metrics.emailSent = m.emailSent
        ∨ (Session.Data b s m r send).metrics.emailSent = m.emailSent + 1)
    ∧ (∀ l, (Session.Data b s m r send).metrics.emailError l = m.emailError l
        ∨ (Session.Data b s m r send).metrics.emailError l = m.emailError l + 1) := by
  by_cases h0 : s.recipients = []
  · rw [data_empty_unfold b s m r send h0]
    exact ⟨counterSum_incError m _ (Or.inl rfl), Or.inl rfl, fun l => incError_or m _ l⟩
  · cases r with
    | err bs =>
        by_cases hsh : bs.length < SesSizeLimit + 1
        · rw [data_err_unfold b s m bs send h0 hsh]
          exact ⟨counterSum_incError m _ (Or.inr (Or.inl rfl)), Or.inl rfl,
            fun l => incError_or m _ l⟩
        · rw [data_err_long b s m bs send (by omega),
            data_oversize_unfold b s m bs send h0 (by omega)]
          exact ⟨counterSum_incError m _ (Or.inr (Or.inr (Or.inl rfl))), Or.inl rfl,
            fun l => incError_or m _ l⟩
    | ok bs =>
        by_cases hbig : bs.length > SesSizeLimit
        · rw [data_oversize_unfold b s m bs send h0 hbig]
          exact ⟨counterSum_incError m _ (Or.inr (Or.inr (Or.inl rfl))), Or.inl rfl,
            fun l => incError_or m _ l⟩
        · rw [data_ok_unfold b s m bs send h0 (by omega)]
          cases hs : send { configurationSetName := b.configSetName, source := s.from_,
                            destinations := s.recipients, rawMessage := ⟨bs⟩ } with
          | error e =>
              exact ⟨counterSum_incError m _ (Or.inr (Or.inr (Or.inr rfl))), Or.inl rfl,
                fun l => incError_or m _ l⟩
          | ok u =>
              exact ⟨counterSum_incSent m, Or.inr rfl, fun l => Or.inl rfl⟩
